import Mathlib

/-!
Verification of the `py_c_extension` packaging manifest (`src/setup.py`).

The repository consists of a single declarative build manifest.  We embed
its data model (the `Extension` descriptor and the keyword arguments passed
to `setup`), the evaluation of the manifest itself (which reads
`README.rst` and raises an uncaught error when the file is absent), and —
modelled from the spec, since the external build tool is not part of the
repository — the build step that turns the descriptor into a loadable
artifact.
-/

namespace PyCExt

/-- A minimal file-system model: files are an association list from path to
contents, directories a list of paths.  Reading a missing file yields
`none`, which in the manifest embedding corresponds to the uncaught
`FileNotFoundError` raised by `open`. -/
structure FileSystem where
  files : List (String × String)
  dirs : List String
deriving DecidableEq

def FileSystem.readFile (fs : FileSystem) (p : String) : Option String :=
  (fs.files.find? (fun e => e.fst == p)).map (fun e => e.snd)

def FileSystem.fileExists (fs : FileSystem) (p : String) : Bool :=
  (fs.readFile p).isSome

def FileSystem.dirExists (fs : FileSystem) (p : String) : Bool :=
  fs.dirs.contains p

/-- The `distutils.core.Extension` descriptor, with exactly the fields the
manifest supplies: the logical module name, the preprocessor macro
definitions, the include directory list and the source file list. -/
structure Extension where
  name : String
  define_macros : List (String × String)
  include_dirs : List String
  sources : List String
deriving DecidableEq

/-- `src/setup.py`, lines 4-9: the single extension descriptor. -/
def module1 : Extension :=
  { name := "DemoPackage",
    define_macros := [("USE_PRINTER", "1")],
    include_dirs := ["include"],
    sources := ["src/demo.c"] }

/-- The keyword arguments the manifest passes to `distutils.core.setup`. -/
structure SetupArgs where
  name : String
  version : String
  description : String
  author : String
  author_email : String
  url : String
  long_description : String
  ext_modules : List Extension
deriving DecidableEq

/-- A call to `setup` registers its arguments with the packaging tool. -/
def setup (args : SetupArgs) (registry : List SetupArgs) : List SetupArgs :=
  registry ++ [args]

/-- Evaluating `src/setup.py` top to bottom against a file system.  The
arguments of the `setup` call are evaluated first; in particular
`open("README.rst").read()` raises an uncaught `FileNotFoundError` when the
file is absent, so `setup` is never reached and nothing is registered.
Returns the resulting registry together with the uncaught error, if any. -/
def runManifest (fs : FileSystem) : List SetupArgs × Option String :=
  match fs.readFile "README.rst" with
  | none => ([], some "FileNotFoundError: README.rst")
  | some readme =>
      let args : SetupArgs :=
        { name := "DemoPackage",
          version := "1.0",
          description := "This is a demo package",
          author := "<first> <last>",
          author_email := "person@site.com",
          url := "https://docs.python.org/extending/buildling",
          long_description := readme,
          ext_modules := [module1] }
      (setup args [], none)

/-- Outcome of the external build step: either an artifact loadable under a
module name, or a file-not-found error for a missing source path. -/
inductive BuildResult where
  | artifact (loadableName : String)
  | fileNotFoundError (path : String)
deriving DecidableEq

/-- Modelled from the spec: the external build tool (not part of this
repository) checks the declared source paths before invoking the compiler;
a missing source is reported as a file-not-found error before any
compilation step is performed, and a successful build yields an artifact
loadable under the extension descriptor's declared name.  The first
component records the compilation steps actually performed. -/
def buildExtension (fs : FileSystem) (ext : Extension) :
    List String × BuildResult :=
  match ext.sources.find? (fun s => !(fs.fileExists s)) with
  | some missing => ([], BuildResult.fileNotFoundError missing)
  | none =>
      (ext.sources.map (fun s => "compile " ++ s), BuildResult.artifact ext.name)

/-- Modelled from the spec: the contents of the repository's `README.rst`,
a file not included under `src/`; the spec states only that the long
description is successfully loaded from it as a non-empty string. -/
def readmeContents : String := "Demo of building a C extension."

/-- Modelled from the spec: the file system at build time in the spec's
end-to-end scenario, with `src/demo.c` and the `include` directory "both
present on disk" and `README.rst` readable with non-empty contents.  The
contents of `src/demo.c` are not part of this repository and play no role
beyond the file's existence. -/
def buildFS : FileSystem :=
  { files := [("README.rst", readmeContents), ("src/demo.c", "/* demo */")],
    dirs := ["include"] }

/-- C1: the extension descriptor's declared module name equals the package
name passed to `setup` (both are `"DemoPackage"`), and the built artifact
is loadable under that declared extension name. -/
theorem C1_extension_name_matches_package_name :
    module1.name = "DemoPackage" ∧
    ((runManifest buildFS).fst.map (fun a => a.name)) = ["DemoPackage"] ∧
    (buildExtension buildFS module1).snd = BuildResult.artifact module1.name := by
  decide

/-- C2: whenever manifest evaluation reaches the `setup` call (no uncaught
error), the one set of registered arguments carries an `ext_modules` list of
length 1 whose single element is the descriptor `module1`. -/
theorem C2_single_extension (fs : FileSystem)
    (h : (runManifest fs).snd = none) :
    ((runManifest fs).fst.map (fun a => a.ext_modules)) = [[module1]] ∧
    ((runManifest fs).fst.map (fun a => a.ext_modules.length)) = [1] := by
  unfold runManifest at h ⊢
  rcases hr : fs.readFile "README.rst" with _ | r
  · rw [hr] at h
    simp at h
  · exact ⟨rfl, rfl⟩

theorem C2_single_extension_witness :
    ((runManifest buildFS).fst.map (fun a => a.ext_modules)) = [[module1]] ∧
    ((runManifest buildFS).fst.map (fun a => a.ext_modules.length)) = [1] :=
  C2_single_extension buildFS (by decide)

/-- C3: the long description registered by `setup` is, verbatim and in
full, the contents of `README.rst` as read at manifest-evaluation time, and
that string is non-empty. -/
theorem C3_long_description_verbatim_nonempty :
    ((runManifest buildFS).fst.map (fun a => a.long_description))
      = [readmeContents] ∧
    buildFS.readFile "README.rst" = some readmeContents ∧
    readmeContents ≠ "" := by
  decide

/-- C4: if `README.rst` is absent, manifest evaluation fails with an
uncaught file-not-found error, `setup` is never invoked, and no package
metadata is registered. -/
theorem C4_missing_readme_aborts_evaluation (fs : FileSystem)
    (h : fs.readFile "README.rst" = none) :
    runManifest fs = ([], some "FileNotFoundError: README.rst") := by
  unfold runManifest
  rw [h]

theorem C4_missing_readme_aborts_evaluation_witness :
    runManifest { files := [], dirs := [] }
      = ([], some "FileNotFoundError: README.rst") :=
  C4_missing_readme_aborts_evaluation { files := [], dirs := [] } rfl

/-- C5: the declared extension's source file list is non-empty, and every
path in it resolves to an existing file in the build-time file system of
the spec's scenario. -/
theorem C5_sources_nonempty_and_exist :
    module1.sources ≠ [] ∧
    module1.sources.all (fun p => buildFS.fileExists p) = true := by
  decide

/-- C6: every entry of the declared include directory list resolves to an
existing directory in the build-time file system of the spec's scenario. -/
theorem C6_include_dirs_exist :
    module1.include_dirs.all (fun d => buildFS.dirExists d) = true := by
  decide

/-- C7: the extension descriptor's source list is exactly the one-element
ordered list `["src/demo.c"]` and its include directory list is exactly the
one-element ordered list `["include"]`. -/
theorem C7_exact_source_and_include_lists :
    module1.sources = ["src/demo.c"] ∧ module1.include_dirs = ["include"] := by
  decide

/-- C8: if `src/demo.c` is absent from the file system, building the
declared extension fails with a file-not-found error for that path and no
compilation step is performed. -/
theorem C8_missing_source_fails_before_compilation (fs : FileSystem)
    (h : fs.fileExists "src/demo.c" = false) :
    buildExtension fs module1
      = ([], BuildResult.fileNotFoundError "src/demo.c") := by
  unfold buildExtension module1
  simp [h]

theorem C8_missing_source_fails_before_compilation_witness :
    buildExtension { files := [], dirs := [] } module1
      = ([], BuildResult.fileNotFoundError "src/demo.c") :=
  C8_missing_source_fails_before_compilation { files := [], dirs := [] } rfl

/-- C9: the extension descriptor defines exactly one preprocessor macro,
the pair `("USE_PRINTER", "1")`, and no others. -/
theorem C9_single_macro_definition :
    module1.define_macros = [("USE_PRINTER", "1")] := by
  decide

/-- C10: manifest evaluation is deterministic in its only external input:
two evaluations in which reading `README.rst` yields the same result
register identical arguments to `setup` (and the same error, if any). -/
theorem C10_manifest_deterministic (fs1 fs2 : FileSystem)
    (h : fs1.readFile "README.rst" = fs2.readFile "README.rst") :
    runManifest fs1 = runManifest fs2 := by
  unfold runManifest
  rw [h]

theorem C10_manifest_deterministic_witness :
    runManifest buildFS
      = runManifest { files := [("README.rst", readmeContents)], dirs := [] } :=
  C10_manifest_deterministic buildFS
    { files := [("README.rst", readmeContents)], dirs := [] } (by decide)

end PyCExt
